import Mathlib

/-!
# Verification of the cursor-ruler change-merge and suggestion-lifecycle engine

This file gives a shallow embedding, in Lean 4, of the core merge / diff /
lifecycle logic of the `cursor-ruler` repository, and proves (or refutes)
a list of claims about it.

The embedded functions are translated from the Python sources:

* `app/rule_applier.py`  — `merge_rule_changes`, `apply_rule_changes`
* `app/formatters.py`    — `generate_diff`, `format_summary_comment`
* `app/handlers.py`      — `parse_summary_state`,
  `handle_suggestion_acceptance`, `handle_apply_command`
* `app/constants.py`     — the signature constants
* `app/prompts.py` / `app/models.py` / `app/cursor_rules.py` — the data model

Python strings are modelled as Lean `String`s with code-point (`List Char`)
semantics; the Python `str` primitives used by the sources (`find`, `split`,
`replace`, `startswith`, `endswith`, `strip`, slicing, `in`, `len`) are
defined below from their documented behaviour, operating on `String.data`.

External collaborators that the embedded code calls but whose behaviour no
claim depends on (the JSON decoding of the hidden comment state, the JSON
serialisation of that state, and `difflib.unified_diff`) are passed to the
embedded functions as explicit function parameters; theorems about the
handlers quantify over them, so every result holds for every behaviour of
those collaborators.  `difflib.Differ` (the subject of the diff round-trip
claim) is modelled concretely as a longest-common-subsequence line aligner.
-/

namespace CursorRuler

/-! ## Python string primitives -/

/-- `isPre pat s` : is `pat` a (code-point) prefix of `s`?  Model of the
prefix test underlying Python's `str.startswith` and `str.find`. -/
def isPre : List Char → List Char → Bool
  | [], _ => true
  | _ :: _, [] => false
  | p :: ps, c :: cs => p == c && isPre ps cs

/-- Python `s.startswith(p)`. -/
def pyStartsWith (s p : String) : Bool := isPre p.data s.data

/-- Python `s.endswith(p)`. -/
def pyEndsWith (s p : String) : Bool := isPre p.data.reverse s.data.reverse

/-- Python `s.find(pat)` on code points: index of the leftmost occurrence,
`none` when absent (Python returns `-1`).  `find("")` is `0`. -/
def pyFindAux : List Char → List Char → Option Nat
  | [], pat => if pat = [] then some 0 else none
  | c :: cs, pat =>
    if isPre pat (c :: cs) then some 0 else (pyFindAux cs pat).map (· + 1)

/-- Python `s.find(pat)`. -/
def pyFind (s pat : String) : Option Nat := pyFindAux s.data pat.data

/-- Python `s.find(pat, start)`. -/
def pyFindFrom (s pat : String) (start : Nat) : Option Nat :=
  (pyFindAux (s.data.drop start) pat.data).map (· + start)

/-- Python `pat in s`. -/
def pyContains (s pat : String) : Bool := (pyFind s pat).isSome

/-- Python `s[:n]` (code points). -/
def pyTake (s : String) (n : Nat) : String := String.mk (s.data.take n)

/-- Python `s[n:]` (code points). -/
def pyDrop (s : String) (n : Nat) : String := String.mk (s.data.drop n)

/-- Python `s[a:b]` (code points, `a ≤ b`). -/
def pySlice (s : String) (a b : Nat) : String :=
  String.mk ((s.data.take b).drop a)

/-- Python `len(s)` (code points). -/
def pyLen (s : String) : Nat := s.data.length

/-- Python `len(s.encode('utf-8'))`. -/
def utf8Len (s : String) : Nat := (s.data.map Char.utf8Size).sum

/-- The whitespace set of Python's default `str.strip`. -/
def isPySpace (c : Char) : Bool :=
  c == ' ' || c == '\t' || c == '\n' || c == '\r' ||
  c == (Char.ofNat 0x0b) || c == (Char.ofNat 0x0c)

/-- Python `s.strip()`. -/
def pyStrip (s : String) : String :=
  String.mk (((s.data.dropWhile isPySpace).reverse.dropWhile isPySpace).reverse)

/-- `s.split('\n')` at the `List Char` level. -/
def splitNLAux : List Char → List (List Char)
  | [] => [[]]
  | c :: cs =>
    if c = '\n' then [] :: splitNLAux cs
    else (c :: (splitNLAux cs).headD []) :: (splitNLAux cs).tail

/-- Python `s.split('\n')`. -/
def pySplitNL (s : String) : List String := (splitNLAux s.data).map String.mk

/-- `'\n'.join` at the `List Char` level. -/
def joinNLAux : List (List Char) → List Char
  | [] => []
  | [l] => l
  | l :: l' :: ls => l ++ '\n' :: joinNLAux (l' :: ls)

/-- Python `'\n'.join(lines)`. -/
def pyJoinNL (l : List String) : String := String.mk (joinNLAux (l.map String.data))

/-- Python `sep.join(parts)`. -/
def strJoinWith (sep : String) : List String → String
  | [] => ""
  | [x] => x
  | x :: y :: ys => x ++ sep ++ strJoinWith sep (y :: ys)

/-- Python `s.split(pat, maxsplit)` (leftmost, non-overlapping), at the
`List Char` level; the first argument bounds the number of splits. -/
def pySplitMaxAux (pat : List Char) : Nat → List Char → List (List Char)
  | 0, s => [s]
  | n + 1, s =>
    match pyFindAux s pat with
    | none => [s]
    | some i => s.take i :: pySplitMaxAux pat n (s.drop (i + pat.length))

/-- Python `s.split(pat, maxsplit)`. -/
def pySplitMax (s pat : String) (maxsplit : Nat) : List String :=
  (pySplitMaxAux pat.data maxsplit s.data).map String.mk

/-- Python `s.split(pat)` (no limit; called only with non-empty `pat`), at
the `List Char` level: leftmost, non-overlapping occurrences. -/
def pySplitAllAux (pat : List Char) : List Char → List (List Char)
  | [] => [[]]
  | c :: cs =>
    if h : pat ≠ [] ∧ isPre pat (c :: cs) = true then
      [] :: pySplitAllAux pat ((c :: cs).drop pat.length)
    else
      match pySplitAllAux pat cs with
      | [] => [[c]]
      | l :: ls => (c :: l) :: ls
termination_by s => s.length
decreasing_by
  · have hp : 0 < pat.length := List.length_pos.mpr h.1
    simp only [List.length_drop, List.length_cons]
    omega
  · simp

/-- Python `s.split(pat)`. -/
def pySplitAll (s pat : String) : List String :=
  (pySplitAllAux pat.data s.data).map String.mk

/-- `sep.join` at the `List Char` level. -/
def joinWithC (sep : List Char) : List (List Char) → List Char
  | [] => []
  | [l] => l
  | l :: l' :: ls => l ++ sep ++ joinWithC sep (l' :: ls)

/-- Python `s.replace(pat, rep)` (all leftmost non-overlapping occurrences),
at the `List Char` level; called only with non-empty `pat`. -/
def pyReplaceAux (pat rep : List Char) : List Char → List Char
  | [] => []
  | c :: cs =>
    if h : pat ≠ [] ∧ isPre pat (c :: cs) = true then
      rep ++ pyReplaceAux pat rep ((c :: cs).drop pat.length)
    else
      c :: pyReplaceAux pat rep cs
termination_by s => s.length
decreasing_by
  · have hp : 0 < pat.length := List.length_pos.mpr h.1
    simp only [List.length_drop, List.length_cons]
    omega
  · simp

/-- Python `s.replace(pat, rep)`. -/
def pyReplace (s pat rep : String) : String :=
  String.mk (pyReplaceAux pat.data rep.data s.data)

/-- Python truthiness of an `Optional[str]`: `None` and `""` are falsy. -/
def truthyO : Option String → Bool
  | none => false
  | some s => s ≠ ""

/-- Python `f"{x}"` applied to an `Optional[str]`: `None` renders as
`"None"`. -/
def pyStr : Option String → String
  | none => "None"
  | some s => s

/-! ## Data model (`app/prompts.py`, `app/models.py`, `app/cursor_rules.py`) -/

/-- `RuleChange` (app/prompts.py): one edit instruction.  `type` is the
Python `Literal["addition", "replacement"]`; the three optional fields model
`Optional[str]` / `Optional[List[str]]`. -/
structure RuleChange where
  type : String
  content : String
  text_to_replace : Option String := none
  existing_content_context : Option String := none
  is_new_file : Bool := false
  file_globs : Option (List String) := none
  file_description : Option String := none
deriving DecidableEq, Inhabited

/-- `RuleGenerationOutput` (app/prompts.py): one proposal. -/
structure RuleGenerationOutput where
  should_generate : Bool := true
  reason : String := ""
  operation : Option String := none
  file_path : Option String := none
  changes : List RuleChange
deriving DecidableEq, Inhabited

/-- `SummaryState` (app/models.py): the per-PR change log parsed from the
summary comment. -/
structure SummaryState where
  suggestions : List (Nat × RuleGenerationOutput)
  is_applied : Bool := false
deriving DecidableEq, Inhabited

/-- `SummaryState.add_suggestion` (app/models.py): append an accepted
suggestion. -/
def SummaryState.addSuggestion (s : SummaryState) (id : Nat)
    (out : RuleGenerationOutput) : SummaryState :=
  { s with suggestions := s.suggestions ++ [(id, out)] }

/-- `CursorRule` (app/cursor_rules.py). -/
structure CursorRule where
  name : String
  description : String
  globs : List String
  content : String
  file_path : String
deriving DecidableEq, Inhabited

/-! ## Constants (app/constants.py) -/

def SUMMARY_SIGNATURE : String := "### 💡 CURSOR RULE SUGGESTIONS SUMMARY"

def SUGGESTION_SIGNATURE : String := "**💡 CURSOR RULE SUGGESTION**"

def APPLIED_SIGNATURE : String := "✅ RULES APPLIED"

def APPLY_COMMAND : String := "/apply-cursor-rules"

/-! ## `merge_rule_changes` (app/rule_applier.py, lines 11–142) -/

/-- The list comprehension of app/rule_applier.py lines 32–36: all
`is_new_file` changes, in list order. -/
def newFileChanges (file_changes : List RuleGenerationOutput) : List RuleChange :=
  (file_changes.flatMap (·.changes)).filter (·.is_new_file)

/-- Lines 46–49: `", ".join(f'"{g}"' for g in globs)` where
`globs = file_globs if isinstance(file_globs, list) else [file_globs]`
(a `None` value renders as the single quoted string `"None"`). -/
def newFileGlobsStr : Option (List String) → String
  | some gs => strJoinWith ", " (gs.map (fun g => "\"" ++ g ++ "\""))
  | none => "\"" ++ "None" ++ "\""

/-- Lines 38–62: build the content of a new rule file from the collected
new-file changes: YAML frontmatter from the last change, bodies
concatenated in list order separated by `"\n"`, a final `"\n"` ensured. -/
def buildNewContent (nfc : List RuleChange) : String :=
  let latest := nfc.getLastD default
  let front := "---\n" ++ "description: " ++ pyStr latest.file_description ++ "\n"
      ++ "globs: " ++ newFileGlobsStr latest.file_globs ++ "\n" ++ "---\n\n"
  let content := front ++ strJoinWith "\n" (nfc.map (·.content))
  if pyEndsWith content "\n" then content else content ++ "\n"

/-- Lines 74–78: scan the metadata block line by line for `description:`
and `globs:` prefixes (later lines overwrite earlier ones). -/
def scanMetaLines (metadata : String) : Option String × Option String :=
  (pySplitNL metadata).foldl
    (fun st line =>
      if pyStartsWith line "description:" then
        (some (pyStrip (pyDrop line 12)), st.2)
      else if pyStartsWith line "globs:" then
        (st.1, some (pyStrip (pyDrop line 6)))
      else st)
    (none, none)

/-- Lines 67–80: extract the current `description:` / `globs:` values from
a document that starts with `---\n` (both `none` otherwise, or when the
split yields fewer than two parts — the `except` branch). -/
def extractMetadata (final_content : String) : Option String × Option String :=
  if pyStartsWith final_content "---\n" then
    match pySplitMax final_content "---\n" 2 with
    | _ :: metadata :: _ => scanMetaLines metadata
    | _ => (none, none)
  else (none, none)

/-- Lines 96–121: apply one change to the current body text (replacement /
context-anchored addition / plain append). -/
def bodyEdit (body : String) (c : RuleChange) : String :=
  if c.type = "replacement" ∧ truthyO c.text_to_replace then
    pyReplace body (c.text_to_replace.getD "") c.content
  else if truthyO c.existing_content_context then
    let ctx := c.existing_content_context.getD ""
    match pyFind body ctx with
    | some i =>
        pyTake body (i + pyLen ctx) ++ "\n" ++ c.content
          ++ pyDrop body (i + pyLen ctx)
    | none =>
        (if body ≠ "" ∧ pyEndsWith body "\n" = false then body ++ "\n" else body)
          ++ c.content
  else if c.content ≠ "" then
    (if body ≠ "" ∧ pyEndsWith body "\n" = false then body ++ "\n" else body)
      ++ c.content
  else body

/-- Lines 88–121: the per-change step of the reverse walk, updating the
pending metadata values (Python truthiness) and the body text. -/
def applyChange (st : Option String × Option String × String) (c : RuleChange) :
    Option String × Option String × String :=
  let d := if truthyO c.file_description then c.file_description else st.1
  let g := match c.file_globs with
    | some gs =>
        if gs ≠ [] then some (strJoinWith ", " (gs.map (fun g => "\"" ++ g ++ "\"")))
        else st.2.1
    | none => st.2.1
  (d, g, bodyEdit st.2.2 c)

/-- Lines 64–142: the update path of `merge_rule_changes` (no new-file
change): fold all changes over the current content in reverse proposal
order, then re-serialise the metadata block if it changed. -/
def mergeUpdate (file_changes : List RuleGenerationOutput)
    (current_content : Option String) : String :=
  let fc0 := current_content.getD ""
  let cur := extractMetadata fc0
  let st := (file_changes.reverse.flatMap (·.changes)).foldl applyChange
    (cur.1, cur.2, fc0)
  let nd := st.1
  let ng := st.2.1
  let fc1 := st.2.2
  if (nd ≠ cur.1 ∨ ng ≠ cur.2) ∧ (truthyO nd ∨ truthyO ng) then
    let body :=
      if pyStartsWith fc1 "---\n" then
        match pySplitMax fc1 "---\n" 2 with
        | [_, _, b] => b
        | _ => fc1
      else fc1
    "---\n" ++ (if truthyO nd then "description: " ++ nd.getD "" ++ "\n" else "")
      ++ (if truthyO ng then "globs: " ++ ng.getD "" ++ "\n" else "")
      ++ "---\n\n" ++ body
  else fc1

/-- `merge_rule_changes` (app/rule_applier.py lines 11–142): merge multiple
rule changes into a single file content. -/
def merge_rule_changes (file_changes : List RuleGenerationOutput)
    (current_content : Option String := none) : String :=
  let hasNew := file_changes.any (fun rule => rule.changes.any (·.is_new_file))
  if hasNew then
    match newFileChanges file_changes with
    | [] => mergeUpdate file_changes current_content
    | c :: cs => buildNewContent (c :: cs)
  else mergeUpdate file_changes current_content

/-! ## `generate_diff` (app/formatters.py, lines 13–37)

`difflib.Differ().compare` is modelled as a longest-common-subsequence line
aligner: it emits every line of the old sequence (prefixed `"- "` or
`"  "`) and every line of the new sequence (prefixed `"+ "` or `"  "`), in
order, marking a line `"  "` exactly when it is matched by the chosen
common subsequence.  The `"? "` hint lines of the real `Differ` carry no
input line and are skipped by `generate_diff`, so they are omitted from the
model.  The round-trip property proved below is independent of which
common subsequence the aligner selects. -/

/-- Length of a longest common subsequence of two line lists. -/
def lcsLen : List String → List String → Nat
  | [], _ => 0
  | _ :: _, [] => 0
  | x :: xs, y :: ys =>
    if x = y then lcsLen xs ys + 1
    else max (lcsLen xs (y :: ys)) (lcsLen (x :: xs) ys)
termination_by a b => a.length + b.length

/-- Model of `difflib.Differ().compare(a, b)`: the tagged line sequence. -/
def differCompare : List String → List String → List String
  | [], ys => ys.map (fun y => "+ " ++ y)
  | x :: xs, [] => ("- " ++ x) :: differCompare xs []
  | x :: xs, y :: ys =>
    if x = y then ("  " ++ x) :: differCompare xs ys
    else if lcsLen xs (y :: ys) ≥ lcsLen (x :: xs) ys then
      ("- " ++ x) :: differCompare xs (y :: ys)
    else
      ("+ " ++ y) :: differCompare (x :: xs) ys
termination_by a b => a.length + b.length

/-- The conversion loop of `generate_diff` (lines 27–36): keep `"  "`,
`"- "`, `"+ "` lines as `(marker, line)` pairs, skip everything else
(the `"? "` hint lines). -/
def toMarked : List String → List (Char × String)
  | [] => []
  | line :: rest =>
    if pyStartsWith line "  " then (' ', pyDrop line 2) :: toMarked rest
    else if pyStartsWith line "- " then ('-', pyDrop line 2) :: toMarked rest
    else if pyStartsWith line "+ " then ('+', pyDrop line 2) :: toMarked rest
    else toMarked rest

/-- `generate_diff` (app/formatters.py lines 13–37): split both texts on
`'\n'`, align them with the differ, and return `(marker, line)` pairs with
markers `'-'`, `'+'`, `' '`. -/
def generate_diff (old_text new_text : String) : List (Char × String) :=
  toMarked (differCompare (pySplitNL old_text) (pySplitNL new_text))

/-- The lines of the pairs whose marker is `'+'` (added) or `' '`
(unchanged), in order. -/
def keepNewLines : List (Char × String) → List String
  | [] => []
  | (m, l) :: rest =>
    if m = '+' ∨ m = ' ' then l :: keepNewLines rest else keepNewLines rest

/-- The lines of the pairs whose marker is `'-'` (removed) or `' '`
(unchanged), in order. -/
def keepOldLines : List (Char × String) → List String
  | [] => []
  | (m, l) :: rest =>
    if m = '-' ∨ m = ' ' then l :: keepOldLines rest else keepOldLines rest

/-! ## `format_summary_comment` (app/formatters.py, lines 202–321)

The two stdlib collaborators used by this function — `difflib.unified_diff`
and `json.dumps` of the hidden state — are passed in as the parameters
`udiff` and `dumps`; every theorem below quantifies over them. -/

/-- `split_mdc_file` (app/formatters.py lines 246–251): split a document
into frontmatter and body. -/
def split_mdc_file (content : String) : String × String :=
  if pyStartsWith content "---\n" then
    match pySplitMax content "---\n" 2 with
    | [_, fm, body] => (fm, body)
    | _ => ("", content)
  else ("", content)

/-- The `changes_by_file` dict of app/formatters.py lines 217–222 (and
app/rule_applier.py lines 222–228), as an insertion-ordered association
list keyed by `file_path`. -/
def addToGroups (groups : List (Option String × List RuleGenerationOutput))
    (fp : Option String) (out : RuleGenerationOutput) :
    List (Option String × List RuleGenerationOutput) :=
  match groups with
  | [] => [(fp, [out])]
  | (k, l) :: rest =>
    if k = fp then (k, l ++ [out]) :: rest
    else (k, l) :: addToGroups rest fp out

/-- Group accepted suggestions by target file path, preserving first-seen
order (Python dict insertion order). -/
def groupByFile (sugs : List (Nat × RuleGenerationOutput)) :
    List (Option String × List RuleGenerationOutput) :=
  sugs.foldl (fun gs p => addToGroups gs p.2.file_path p.2) []

/-- The diff-rendering loops of app/formatters.py lines 268–274 and
289–295: `'+'`/`'-'` lines verbatim, anything else as a context line. -/
def renderUdiffLines (lines : List String) : String :=
  lines.foldl
    (fun acc line =>
      if pyStartsWith line "+" then acc ++ line ++ "\n"
      else if pyStartsWith line "-" then acc ++ line ++ "\n"
      else acc ++ " " ++ pyDrop line 1 ++ "\n")
    ""

/-- One `File:` section of the summary (app/formatters.py lines 225–297). -/
def fileSection (udiff : List String → List String → List String)
    (current_rules : List CursorRule) (fp : Option String)
    (fcs : List RuleGenerationOutput) : String :=
  let head := "\nFile: `" ++ pyStr fp ++ "`"
  let existing := current_rules.find? (fun r => some r.file_path = fp)
  let final_content := merge_rule_changes fcs (existing.map (·.content))
  match existing with
  | none =>
      head ++ " (new file)\n```diff\n"
        ++ (pySplitNL final_content).foldl (fun acc line => acc ++ "+ " ++ line ++ "\n") ""
        ++ "```\n"
  | some rule =>
      let old := split_mdc_file rule.content
      let new := split_mdc_file final_content
      let fmChanged : Bool := old.1 ≠ new.1
      let fmPart :=
        if fmChanged then
          renderUdiffLines ((udiff (pySplitNL old.1) (pySplitNL new.1)).drop 2)
        else ""
      let body_diff := udiff (pySplitNL old.2) (pySplitNL new.2)
      let elision := if fmChanged ∧ body_diff.length > 2 then " ...\n" else ""
      let bodyPart :=
        if body_diff.length > 2 then renderUdiffLines (body_diff.drop 2) else ""
      head ++ "\n```diff\n" ++ fmPart ++ elision ++ bodyPart ++ "```\n"

/-- `format_summary_comment` (app/formatters.py lines 202–321): render the
accumulated change-log state into the summary comment text. -/
def format_summary_comment (udiff : List String → List String → List String)
    (dumps : List (Nat × RuleGenerationOutput) → String)
    (state : SummaryState) (current_rules : List CursorRule) : String :=
  let s0 := SUMMARY_SIGNATURE ++ "\n\n"
  let s1 :=
    if state.is_applied then
      s0 ++ APPLIED_SIGNATURE ++ "\n"
        ++ "These rules have been applied to the codebase. This PR's suggestions are now locked.\n\n"
        ++ "Applied Changes:\n"
    else s0 ++ "Changes to be applied:\n"
  let s2 :=
    if state.suggestions ≠ [] then
      let body := (groupByFile state.suggestions).foldl
        (fun acc g => acc ++ fileSection udiff current_rules g.1 g.2) s1
      let body :=
        if state.is_applied = false then
          body ++ "\n**To apply these changes:**\n"
            ++ "Add a new comment on this PR with the text `/apply-cursor-rules` and nothing else.\n"
        else body
      body ++ "\n<!--rule-changes\n" ++ dumps state.suggestions ++ "\n-->\n"
    else s1 ++ "No suggestions accepted yet.\n\n"
  if state.is_applied = false then
    s2 ++ "\nℹ️ Once rules are applied, no further rule suggestions will be added to this PR. Always double check the generated commit before merging."
  else s2

/-! ## `parse_summary_state` (app/handlers.py, lines 137–169)

The `json.loads` + pydantic validation of the hidden state blob is the
parameter `decoder`; it returns the suggestion pairs that end up added (an
exception part-way is a decoder returning the partial list). -/

/-- `parse_summary_state` (app/handlers.py lines 137–169): parse the
summary comment body into a `SummaryState`. -/
def parse_summary_state (decoder : String → List (Nat × RuleGenerationOutput))
    (summary_body : String) : SummaryState :=
  if pyContains summary_body SUMMARY_SIGNATURE = false then ⟨[], false⟩
  else if pyContains summary_body APPLIED_SIGNATURE then ⟨[], true⟩
  else
    match pyFind summary_body "<!--rule-changes\n" with
    | none => ⟨[], false⟩
    | some i =>
      let json_start := i + pyLen "<!--rule-changes\n"
      if i ≥ 1 then
        match pyFindFrom summary_body "\n-->" json_start with
        | some j =>
          if j > json_start then
            ⟨decoder (pySlice summary_body json_start j), false⟩
          else ⟨[], false⟩
        | none => ⟨[], false⟩
      else ⟨[], false⟩

/-! ## `handle_suggestion_acceptance` (app/handlers.py, lines 290–362)

The embedding starts after the extraction and validation of the
`RuleGenerationOutput` from the suggestion comment (an external JSON
collaborator) and models the effect on the summary comment: the returned
`editedSummary` is `some` new body exactly when the code edits the summary
comment, and `none` when it returns without writing. -/

/-- Outcome of one acceptance: the response message and the new summary
comment body, when one is written. -/
structure AcceptOutcome where
  message : String
  editedSummary : Option String
deriving DecidableEq

/-- `handle_suggestion_acceptance` (app/handlers.py lines 321–343): the
state update guarded by the 60,000-byte size check. -/
def handle_suggestion_acceptance (udiff : List String → List String → List String)
    (dumps : List (Nat × RuleGenerationOutput) → String)
    (decoder : String → List (Nat × RuleGenerationOutput))
    (commentId : Nat) (rule_output : RuleGenerationOutput)
    (summaryBody : String) (current_rules : List CursorRule) : AcceptOutcome :=
  let state := parse_summary_state decoder summaryBody
  if state.is_applied then ⟨"Rules already applied", none⟩
  else
    let test_state := state.addSuggestion commentId rule_output
    let test_summary := format_summary_comment udiff dumps test_state current_rules
    if utf8Len test_summary > 60000 then
      ⟨"Cannot accept suggestion: Summary comment would exceed GitHub's size limit. Please apply current suggestions before adding more.", none⟩
    else
      let state' := state.addSuggestion commentId rule_output
      ⟨"Updated summary with accepted suggestion",
        some (format_summary_comment udiff dumps state' current_rules)⟩

/-! ## `handle_apply_command` (app/handlers.py, lines 481–546) -/

/-- The content-merging core of `apply_rule_changes`
(app/rule_applier.py lines 211–250): group the accepted suggestions by
file, fetch each file's current content (`getFile`), and merge.  The
result is the list of `(path, final content)` pairs committed. -/
def apply_rule_changes (getFile : Option String → Option String)
    (state : SummaryState) : List (Option String × String) :=
  (groupByFile state.suggestions).map
    (fun g => (g.1, merge_rule_changes g.2 (getFile g.1)))

/-- Outcome of one apply command: the response message, the committed file
contents when a commit happens, and the new summary body when the summary
comment is edited. -/
structure ApplyOutcome where
  message : String
  commits : Option (List (Option String × String))
  editedSummary : Option String
deriving DecidableEq

/-- `handle_apply_command` (app/handlers.py lines 481–546): `summaryBody`
is the summary comment found by `find_or_create_summary` (or `none`). -/
def handle_apply_command (udiff : List String → List String → List String)
    (dumps : List (Nat × RuleGenerationOutput) → String)
    (decoder : String → List (Nat × RuleGenerationOutput))
    (getFile : Option String → Option String)
    (summaryBody : Option String) (current_rules : List CursorRule) : ApplyOutcome :=
  match summaryBody with
  | none => ⟨"No suggestions to apply", none, none⟩
  | some body =>
    let state := parse_summary_state decoder body
    if state.suggestions = [] then ⟨"No accepted suggestions to apply", none, none⟩
    else if state.is_applied then ⟨"Rules already applied", none, none⟩
    else
      let results := apply_rule_changes getFile state
      let applied := { state with is_applied := true }
      let summary := format_summary_comment udiff dumps applied current_rules
      ⟨"Successfully applied " ++ toString state.suggestions.length ++ " suggestions",
        some results, some summary⟩

/-! ## Spec-side anchor resolution (for the anchor claim)

The specification (§4.2) describes anchor resolution by trimmed-line
comparison.  The following definitions follow the spec's words — not the
code — and exist only to compare the two behaviours. -/

/-- Spec's words: do the first `anchor.length` lines of `lines` equal the
anchor lines after trimming? -/
def trimmedMatchAt (lines anchor : List String) : Bool :=
  decide (anchor.length ≤ lines.length) &&
    (lines.take anchor.length).map pyStrip == anchor.map pyStrip

/-- Spec's words: first index (top-to-bottom) where the trimmed anchor
lines match. -/
def findTrimmedAnchor (anchor : List String) : List String → Option Nat
  | [] => none
  | l :: ls =>
    if trimmedMatchAt (l :: ls) anchor then some 0
    else (findTrimmedAnchor anchor ls).map (· + 1)

/-- Modelled from the spec (§4.2 Anchor Resolver and claim C4): locate the
anchor by scanning top-to-bottom for the first position whose trimmed
lines equal the trimmed anchor lines; insert the content immediately after
the anchor, separated by a single newline; append at the end when there is
no match. -/
def specAnchorInsert (body anchor content : String) : String :=
  let lines := pySplitNL body
  let aLines := pySplitNL anchor
  match findTrimmedAnchor aLines lines with
  | some i =>
      pyJoinNL (lines.take (i + aLines.length) ++ [content]
        ++ lines.drop (i + aLines.length))
  | none => pyJoinNL (lines ++ [content])

/-! ## Basic string lemmas -/

theorem mk_data (s : String) : String.mk s.data = s := by
  obtain ⟨d⟩ := s
  rfl

theorem data_append (a b : String) : (a ++ b).data = a.data ++ b.data := rfl

theorem splitNLAux_ne_nil (l : List Char) : splitNLAux l ≠ [] := by
  induction l with
  | nil => simp [splitNLAux]
  | cons c cs ih =>
    simp only [splitNLAux]
    split <;> simp

theorem joinNLAux_splitNLAux (l : List Char) : joinNLAux (splitNLAux l) = l := by
  induction l with
  | nil => rfl
  | cons c cs ih =>
    simp only [splitNLAux]
    by_cases hc : c = '\n'
    · rw [if_pos hc]
      cases h : splitNLAux cs with
      | nil => exact absurd h (splitNLAux_ne_nil cs)
      | cons x xs =>
        rw [h] at ih
        simp only [joinNLAux, List.nil_append]
        rw [ih, hc]
    · rw [if_neg hc]
      cases h : splitNLAux cs with
      | nil => exact absurd h (splitNLAux_ne_nil cs)
      | cons x xs =>
        rw [h] at ih
        simp only [List.headD_cons, List.tail_cons]
        cases xs with
        | nil =>
          simp only [joinNLAux] at ih ⊢
          rw [ih]
        | cons x' xs' =>
          simp only [joinNLAux] at ih ⊢
          rw [List.cons_append, ih]

theorem pyJoinNL_pySplitNL (s : String) : pyJoinNL (pySplitNL s) = s := by
  simp only [pyJoinNL, pySplitNL, List.map_map]
  rw [show (String.data ∘ String.mk) = (id : List Char → List Char) from rfl,
    List.map_id, joinNLAux_splitNLAux, mk_data]

/-! ## Diff round-trip lemmas -/

theorem pyStartsWith_sp_sp (x : String) : pyStartsWith ("  " ++ x) "  " = true := rfl

theorem pyStartsWith_mn_sp (x : String) : pyStartsWith ("- " ++ x) "  " = false := rfl

theorem pyStartsWith_pl_sp (x : String) : pyStartsWith ("+ " ++ x) "  " = false := rfl

theorem pyStartsWith_mn_mn (x : String) : pyStartsWith ("- " ++ x) "- " = true := rfl

theorem pyStartsWith_pl_mn (x : String) : pyStartsWith ("+ " ++ x) "- " = false := rfl

theorem pyStartsWith_pl_pl (x : String) : pyStartsWith ("+ " ++ x) "+ " = true := rfl

theorem pyDrop_two (p x : String) (h : p.data.length = 2) : pyDrop (p ++ x) 2 = x := by
  simp only [pyDrop, data_append]
  rw [List.drop_append_of_le_length (by omega), List.drop_eq_nil_iff.mpr (by omega)]
  simp [mk_data]

theorem toMarked_sp (x : String) (rest : List String) :
    toMarked (("  " ++ x) :: rest) = (' ', x) :: toMarked rest := by
  simp only [toMarked, pyStartsWith_sp_sp, if_true]
  rw [pyDrop_two "  " x rfl]

theorem toMarked_mn (x : String) (rest : List String) :
    toMarked (("- " ++ x) :: rest) = ('-', x) :: toMarked rest := by
  simp only [toMarked, pyStartsWith_mn_sp, pyStartsWith_mn_mn, if_true,
    Bool.false_eq_true, if_false]
  rw [pyDrop_two "- " x rfl]

theorem toMarked_pl (x : String) (rest : List String) :
    toMarked (("+ " ++ x) :: rest) = ('+', x) :: toMarked rest := by
  simp only [toMarked, pyStartsWith_pl_sp, pyStartsWith_pl_mn, pyStartsWith_pl_pl,
    if_true, Bool.false_eq_true, if_false]
  rw [pyDrop_two "+ " x rfl]

theorem keepNewLines_sp (l : String) (rest : List (Char × String)) :
    keepNewLines ((' ', l) :: rest) = l :: keepNewLines rest := by
  simp [keepNewLines]

theorem keepNewLines_pl (l : String) (rest : List (Char × String)) :
    keepNewLines (('+', l) :: rest) = l :: keepNewLines rest := by
  simp [keepNewLines]

theorem keepNewLines_mn (l : String) (rest : List (Char × String)) :
    keepNewLines (('-', l) :: rest) = keepNewLines rest := by
  simp [keepNewLines]

theorem keepOldLines_sp (l : String) (rest : List (Char × String)) :
    keepOldLines ((' ', l) :: rest) = l :: keepOldLines rest := by
  simp [keepOldLines]

theorem keepOldLines_pl (l : String) (rest : List (Char × String)) :
    keepOldLines (('+', l) :: rest) = keepOldLines rest := by
  simp [keepOldLines]

theorem keepOldLines_mn (l : String) (rest : List (Char × String)) :
    keepOldLines (('-', l) :: rest) = l :: keepOldLines rest := by
  simp [keepOldLines]

theorem keepNew_plus_map (ys : List String) :
    keepNewLines (toMarked (ys.map (fun y => "+ " ++ y))) = ys := by
  induction ys with
  | nil => rfl
  | cons y ys ih => rw [List.map_cons, toMarked_pl, keepNewLines_pl, ih]

theorem keepOld_plus_map (ys : List String) :
    keepOldLines (toMarked (ys.map (fun y => "+ " ++ y))) = [] := by
  induction ys with
  | nil => rfl
  | cons y ys ih => rw [List.map_cons, toMarked_pl, keepOldLines_pl, ih]

theorem keepNew_differCompare (a b : List String) :
    keepNewLines (toMarked (differCompare a b)) = b := by
  induction a, b using differCompare.induct with
  | case1 ys => rw [differCompare]; exact keepNew_plus_map ys
  | case2 x xs ih => rw [differCompare, toMarked_mn, keepNewLines_mn, ih]
  | case3 xs y ys ih =>
    rw [differCompare, if_pos rfl, toMarked_sp, keepNewLines_sp, ih]
  | case4 x xs y ys hxy hge ih =>
    rw [differCompare, if_neg hxy, if_pos hge, toMarked_mn, keepNewLines_mn, ih]
  | case5 x xs y ys hxy hge ih =>
    rw [differCompare, if_neg hxy, if_neg hge, toMarked_pl, keepNewLines_pl, ih]

theorem keepOld_differCompare (a b : List String) :
    keepOldLines (toMarked (differCompare a b)) = a := by
  induction a, b using differCompare.induct with
  | case1 ys => rw [differCompare]; exact keepOld_plus_map ys
  | case2 x xs ih => rw [differCompare, toMarked_mn, keepOldLines_mn, ih]
  | case3 xs y ys ih =>
    rw [differCompare, if_pos rfl, toMarked_sp, keepOldLines_sp, ih]
  | case4 x xs y ys hxy hge ih =>
    rw [differCompare, if_neg hxy, if_pos hge, toMarked_mn, keepOldLines_mn, ih]
  | case5 x xs y ys hxy hge ih =>
    rw [differCompare, if_neg hxy, if_neg hge, toMarked_pl, keepOldLines_pl, ih]

/-! ## Merge-path lemmas -/

theorem hasNew_iff (fcs : List RuleGenerationOutput) :
    (fcs.any (fun rule => rule.changes.any (·.is_new_file)) = true)
      ↔ newFileChanges fcs ≠ [] := by
  simp only [newFileChanges, ne_eq, List.filter_eq_nil_iff, List.mem_flatMap,
    List.any_eq_true, not_forall]
  constructor
  · rintro ⟨r, hr, c, hc, hn⟩
    exact ⟨c, ⟨⟨r, hr, hc⟩, by simp [hn]⟩⟩
  · rintro ⟨c, ⟨⟨r, hr, hc⟩, hn⟩⟩
    exact ⟨r, hr, c, hc, by simpa using hn⟩

theorem merge_of_hasNew (fcs : List RuleGenerationOutput) (cur : Option String)
    (h : fcs.any (fun rule => rule.changes.any (·.is_new_file)) = true) :
    merge_rule_changes fcs cur = buildNewContent (newFileChanges fcs) := by
  have hne := (hasNew_iff fcs).mp h
  simp only [merge_rule_changes, h, if_true]
  cases hn : newFileChanges fcs with
  | nil => exact absurd hn hne
  | cons c cs => rfl

/-- Claim C1 (code bug): with two update proposals accepted in order P1
(description "A") then P2 (description "B") against an existing document,
the merged output carries description "A" — the earliest proposal wins,
because the reverse walk of `merge_rule_changes` keeps overwriting the
pending metadata, contradicting the code's own comment ("so most recent
takes precedence") and the spec ("most-recent-wins").  This theorem
evaluates the code at the failing input. -/
theorem c1_metadata_precedence_bug :
    merge_rule_changes
      [⟨true, "", none, none, [⟨"addition", "", none, none, false, none, some "A"⟩]⟩,
       ⟨true, "", none, none, [⟨"addition", "", none, none, false, none, some "B"⟩]⟩]
      (some "body")
      = "---\ndescription: A\n---\n\nbody"
    ∧ ("---\ndescription: A\n---\n\nbody" : String)
      ≠ "---\ndescription: B\n---\n\nbody" := by
  exact ⟨rfl, by decide⟩

/-- Claim C2, counterexample: a new-document proposal merged over a
supplied pre-existing content returns normally (no error value of any
kind — `merge_rule_changes` is a total function into `String`), yields
exactly the same output as when no pre-existing content is supplied, and
that output does not retain the pre-existing text: the conflicting state
is silently resolved by discarding, not surfaced. -/
theorem c2_counterexample :
    merge_rule_changes
      [⟨true, "", none, none,
        [⟨"addition", "new rule body", none, none, true, some ["*.py"], some "desc"⟩]⟩]
      (some "PRE-EXISTING CONTENT")
      = merge_rule_changes
        [⟨true, "", none, none,
          [⟨"addition", "new rule body", none, none, true, some ["*.py"], some "desc"⟩]⟩]
        none
    ∧ merge_rule_changes
        [⟨true, "", none, none,
          [⟨"addition", "new rule body", none, none, true, some ["*.py"], some "desc"⟩]⟩]
        (some "PRE-EXISTING CONTENT")
      = "---\ndescription: desc\nglobs: \"*.py\"\n---\n\nnew rule body\n" := by
  exact ⟨rfl, rfl⟩

/-- Claim C2, amended: when any change in the proposal list is a new-file
change, `merge_rule_changes` ignores a supplied pre-existing content
entirely — it returns the same result as if none existed, surfacing no
error and no conflict. -/
theorem c2_amended (fcs : List RuleGenerationOutput) (cur : String)
    (h : fcs.any (fun rule => rule.changes.any (·.is_new_file)) = true) :
    merge_rule_changes fcs (some cur) = merge_rule_changes fcs none := by
  rw [merge_of_hasNew fcs (some cur) h, merge_of_hasNew fcs none h]

/-- Claim C2, witness for the amended theorem. -/
theorem c2_amended_witness :
    merge_rule_changes
      [⟨true, "", none, none,
        [⟨"addition", "body text", none, none, true, some ["*.ts"], some "d"⟩]⟩]
      (some "OLD")
      = merge_rule_changes
        [⟨true, "", none, none,
          [⟨"addition", "body text", none, none, true, some ["*.ts"], some "d"⟩]⟩]
        none :=
  c2_amended _ "OLD" (by decide)

/-- Claim C9: when any change in the proposal list has `is_new_file`, the
output of `merge_rule_changes` depends only on the list of new-file
changes — two runs that agree on the filtered new-file changes but differ
arbitrarily in the supplied current content and in the non-new-file
changes produce identical output. -/
theorem c9_new_file_only_dependence (fcs1 fcs2 : List RuleGenerationOutput)
    (cur1 cur2 : Option String)
    (h : fcs1.any (fun rule => rule.changes.any (·.is_new_file)) = true)
    (heq : newFileChanges fcs1 = newFileChanges fcs2) :
    merge_rule_changes fcs1 cur1 = merge_rule_changes fcs2 cur2 := by
  have h1 := (hasNew_iff fcs1).mp h
  have h2 : fcs2.any (fun rule => rule.changes.any (·.is_new_file)) = true :=
    (hasNew_iff fcs2).mpr (heq ▸ h1)
  rw [merge_of_hasNew fcs1 cur1 h, merge_of_hasNew fcs2 cur2 h2, heq]

/-- Claim C9, witness: the second run differs in the current content and
carries an extra non-new-file replacement change, yet the outputs agree. -/
theorem c9_witness :
    merge_rule_changes
      [⟨true, "", none, none,
        [⟨"addition", "alpha", none, none, true, some ["*.go"], some "dd"⟩]⟩]
      (some "current A")
      = merge_rule_changes
        [⟨true, "", none, none,
          [⟨"addition", "alpha", none, none, true, some ["*.go"], some "dd"⟩,
           ⟨"replacement", "zzz", some "alpha", none, false, none, none⟩]⟩]
        (some "current B") :=
  c9_new_file_only_dependence _ _ _ _ (by decide) (by decide)

/-- Claim C5: for every pair of texts, the diff produced by
`generate_diff` satisfies the round-trip property — joining (with
newlines) the lines of the pairs marked `'+'` or `' '`, in order,
reconstructs the new text exactly, and joining the lines of the pairs
marked `'-'` or `' '` reconstructs the old text exactly. -/
theorem c5_diff_round_trip (old_text new_text : String) :
    pyJoinNL (keepNewLines (generate_diff old_text new_text)) = new_text
    ∧ pyJoinNL (keepOldLines (generate_diff old_text new_text)) = old_text := by
  constructor
  · rw [generate_diff, keepNew_differCompare, pyJoinNL_pySplitNL]
  · rw [generate_diff, keepOld_differCompare, pyJoinNL_pySplitNL]

/-- Claim C3, counterexample: two new-file proposals whose later content
does not end in a newline.  The claim as stated says the resulting
document is exactly the metadata of P2 followed by
`P1.content ++ "\n" ++ P2.content`; the code appends one further trailing
newline, so the stated equality fails at this input. -/
theorem c3_counterexample :
    merge_rule_changes
      [⟨true, "", none, none,
        [⟨"addition", "a", none, none, true, some ["*.py"], some "d1"⟩]⟩,
       ⟨true, "", none, none,
        [⟨"addition", "b", none, none, true, some ["*.ts"], some "d2"⟩]⟩]
      none
      ≠ "---\ndescription: d2\nglobs: \"*.ts\"\n---\n\n" ++ ("a" ++ "\n" ++ "b")
    ∧ merge_rule_changes
        [⟨true, "", none, none,
          [⟨"addition", "a", none, none, true, some ["*.py"], some "d1"⟩]⟩,
         ⟨true, "", none, none,
          [⟨"addition", "b", none, none, true, some ["*.ts"], some "d2"⟩]⟩]
        none
      = "---\ndescription: d2\nglobs: \"*.ts\"\n---\n\na\nb\n" := by
  exact ⟨by decide, rfl⟩

/-- Claim C3, amended: for two new-document proposals P1 accepted before
P2 for the same path, the merged document is the frontmatter built from
P2's description and globs followed by `P1.content ++ "\n" ++ P2.content`
(acceptance order preserved, metadata from P2), with one trailing newline
appended when the document does not already end in one. -/
theorem c3_amended (P1 P2 : RuleGenerationOutput) (c1 c2 : RuleChange)
    (cur : Option String)
    (h1 : P1.changes = [c1]) (h2 : P2.changes = [c2])
    (hn1 : c1.is_new_file = true) (hn2 : c2.is_new_file = true) :
    merge_rule_changes [P1, P2] cur =
      (let front := "---\n" ++ "description: " ++ pyStr c2.file_description ++ "\n"
          ++ "globs: " ++ newFileGlobsStr c2.file_globs ++ "\n" ++ "---\n\n"
       let raw := front ++ (c1.content ++ "\n" ++ c2.content)
       if pyEndsWith raw "\n" then raw else raw ++ "\n") := by
  have hany : [P1, P2].any (fun rule => rule.changes.any (·.is_new_file)) = true := by
    simp [h1, h2, hn1, hn2]
  have hnfc : newFileChanges [P1, P2] = [c1, c2] := by
    simp [newFileChanges, h1, h2, hn1, hn2]
  rw [merge_of_hasNew _ _ hany, hnfc]
  simp only [buildNewContent, List.getLastD, List.map_cons, List.map_nil, strJoinWith]
  rfl

/-- Claim C3, witness for the amended theorem. -/
theorem c3_amended_witness :
    merge_rule_changes
      [⟨true, "", none, none,
        [⟨"addition", "first body", none, none, true, some ["*.c"], some "dA"⟩]⟩,
       ⟨true, "", none, none,
        [⟨"addition", "second body", none, none, true, some ["*.h"], some "dB"⟩]⟩]
      none
      = (let front := "---\n" ++ "description: "
            ++ pyStr (some "dB") ++ "\n"
            ++ "globs: " ++ newFileGlobsStr (some ["*.h"]) ++ "\n" ++ "---\n\n"
         let raw := front ++ ("first body" ++ "\n" ++ "second body")
         if pyEndsWith raw "\n" then raw else raw ++ "\n") :=
  c3_amended
    ⟨true, "", none, none,
      [⟨"addition", "first body", none, none, true, some ["*.c"], some "dA"⟩]⟩
    ⟨true, "", none, none,
      [⟨"addition", "second body", none, none, true, some ["*.h"], some "dB"⟩]⟩
    ⟨"addition", "first body", none, none, true, some ["*.c"], some "dA"⟩
    ⟨"addition", "second body", none, none, true, some ["*.h"], some "dB"⟩
    none rfl rfl rfl rfl

/-! ## Single-change update lemmas -/

theorem merge_single_bodyEdit (P : RuleGenerationOutput) (c : RuleChange)
    (body : String) (hch : P.changes = [c]) (hnew : c.is_new_file = false)
    (hd : c.file_description = none) (hg : c.file_globs = none) :
    merge_rule_changes [P] (some body) = bodyEdit body c := by
  have hany : [P].any (fun rule => rule.changes.any (·.is_new_file)) = false := by
    simp [hch, hnew]
  simp only [merge_rule_changes, hany, Bool.false_eq_true, if_false]
  simp only [mergeUpdate, Option.getD_some, List.reverse_cons, List.reverse_nil,
    List.nil_append, List.flatMap_cons, List.flatMap_nil, hch, List.append_nil,
    List.foldl_cons, List.foldl_nil]
  simp only [applyChange, hd, hg, truthyO]
  simp

theorem pySplitAllAux_ne_nil (pat s : List Char) : pySplitAllAux pat s ≠ [] := by
  induction s using pySplitAllAux.induct pat with
  | case1 => simp [pySplitAllAux]
  | case2 c cs h ih =>
    simp only [pySplitAllAux]
    rw [dif_pos h]
    simp
  | case3 c cs h hsp ih => exact absurd hsp ih
  | case4 c cs h l ls hsp ih =>
    simp only [pySplitAllAux]
    rw [dif_neg h, hsp]
    simp

theorem replaceAux_eq_joinWithC (pat rep s : List Char) :
    pyReplaceAux pat rep s = joinWithC rep (pySplitAllAux pat s) := by
  induction s using pySplitAllAux.induct pat with
  | case1 => simp [pyReplaceAux, pySplitAllAux, joinWithC]
  | case2 c cs h ih =>
    simp only [pyReplaceAux, pySplitAllAux]
    rw [dif_pos h, dif_pos h]
    cases hsp : pySplitAllAux pat ((c :: cs).drop pat.length) with
    | nil => exact absurd hsp (pySplitAllAux_ne_nil _ _)
    | cons l ls =>
      rw [hsp] at ih
      simp only [joinWithC, List.nil_append]
      rw [ih]
  | case3 c cs h hsp ih => exact absurd hsp (pySplitAllAux_ne_nil _ _)
  | case4 c cs h l ls hsp ih =>
    rw [hsp] at ih
    simp only [pyReplaceAux, pySplitAllAux]
    rw [dif_neg h, dif_neg h, hsp]
    cases ls with
    | nil =>
      simp only [joinWithC] at ih ⊢
      rw [ih]
    | cons l' ls' =>
      simp only [joinWithC] at ih ⊢
      simp [ih, List.cons_append, List.append_assoc]

theorem mk_append_mk (a b : List Char) :
    (String.mk a ++ String.mk b : String) = String.mk (a ++ b) := rfl

theorem strJoinWith_mk (sep : String) (l : List (List Char)) :
    strJoinWith sep (l.map String.mk) = String.mk (joinWithC sep.data l) := by
  obtain ⟨sd⟩ := sep
  induction l with
  | nil => rfl
  | cons x xs ih =>
    cases xs with
    | nil => rfl
    | cons x' xs' =>
      simp only [List.map_cons, strJoinWith, joinWithC] at ih ⊢
      rw [ih]
      rfl

theorem replaceAux_id_of_find_none (pat rep s : List Char)
    (h : pyFindAux s pat = none) : pyReplaceAux pat rep s = s := by
  induction s using pyReplaceAux.induct pat rep with
  | case1 => simp [pyReplaceAux]
  | case2 c cs hc ih =>
    rw [pyFindAux, if_pos hc.2] at h
    exact absurd h (by simp)
  | case3 c cs hc ih =>
    by_cases hp : isPre pat (c :: cs) = true
    · rw [pyFindAux, if_pos hp] at h
      exact absurd h (by simp)
    · rw [pyFindAux, if_neg hp] at h
      simp only [Option.map_eq_none'] at h
      simp only [pyReplaceAux]
      rw [dif_neg hc, ih h]

/-- Claim C4, counterexample: the claim describes anchor resolution by
trimmed-line comparison (`specAnchorInsert`, written from the spec's
words).  The code resolves the anchor by exact substring search
(`str.find`): with body `"hello\nworld"` and anchor `"hello "` (trailing
space) the trimmed-line scan matches line 0 and would insert after it,
but the code finds no exact substring and appends at the end, so the two
behaviours differ at this input. -/
theorem c4_counterexample :
    merge_rule_changes
      [⟨true, "", none, none,
        [⟨"addition", "X", none, some "hello ", false, none, none⟩]⟩]
      (some "hello\nworld")
      = "hello\nworld\nX"
    ∧ specAnchorInsert "hello\nworld" "hello " "X" = "hello\nX\nworld"
    ∧ ("hello\nworld\nX" : String) ≠ "hello\nX\nworld" := by
  refine ⟨rfl, rfl, by decide⟩

/-- Claim C4, amended: for an addition change carrying a non-empty
`existing_content_context`, `merge_rule_changes` locates the anchor by
exact substring search (Python `str.find`), scanning left-to-right, first
occurrence wins; on a match the content is inserted immediately after the
matched substring, separated by a single newline; when there is no exact
occurrence the content is appended at the end of the document (preceded
by a newline when the document is non-empty and does not end in one) —
never silently dropped, and no error is raised (the merge is a total
function). -/
theorem c4_amended (P : RuleGenerationOutput) (c : RuleChange)
    (body ctx : String)
    (hch : P.changes = [c]) (hnew : c.is_new_file = false)
    (htype : c.type = "addition")
    (hctx : c.existing_content_context = some ctx) (hne : ctx ≠ "")
    (hd : c.file_description = none) (hg : c.file_globs = none) :
    merge_rule_changes [P] (some body) =
      match pyFind body ctx with
      | some i =>
          pyTake body (i + pyLen ctx) ++ "\n" ++ c.content
            ++ pyDrop body (i + pyLen ctx)
      | none =>
          (if body ≠ "" ∧ pyEndsWith body "\n" = false then body ++ "\n" else body)
            ++ c.content := by
  rw [merge_single_bodyEdit P c body hch hnew hd hg]
  have h1 : ¬(c.type = "replacement" ∧ truthyO c.text_to_replace = true) := by
    rw [htype]
    rintro ⟨hcontra, -⟩
    exact absurd hcontra (by decide)
  simp only [bodyEdit, if_neg h1, hctx, Option.getD_some]
  simp [truthyO, hne]

/-- Claim C4, witness for the amended theorem (anchor present). -/
theorem c4_amended_witness :
    merge_rule_changes
      [⟨true, "", none, none,
        [⟨"addition", "INS", none, some "one", false, none, none⟩]⟩]
      (some "line one\nline two")
      = match pyFind "line one\nline two" "one" with
        | some i =>
            pyTake "line one\nline two" (i + pyLen "one") ++ "\n" ++ "INS"
              ++ pyDrop "line one\nline two" (i + pyLen "one")
        | none =>
            (if ("line one\nline two" : String) ≠ ""
                ∧ pyEndsWith "line one\nline two" "\n" = false
             then "line one\nline two" ++ "\n" else "line one\nline two")
              ++ "INS" :=
  c4_amended
    ⟨true, "", none, none,
      [⟨"addition", "INS", none, some "one", false, none, none⟩]⟩
    ⟨"addition", "INS", none, some "one", false, none, none⟩
    "line one\nline two" "one" rfl rfl rfl rfl (by decide) rfl rfl

/-- Claim C8: for a replacement change with a non-empty `text_to_replace`
span, the merge performs Python `str.replace`: every leftmost
non-overlapping occurrence of the span is substituted by the content
(equivalently, the body is split on the span and rejoined with the
content — textual substitution, not position-based), and when the span
does not occur in the body the merge returns the body unchanged. -/
theorem c8_replacement_semantics (P : RuleGenerationOutput) (c : RuleChange)
    (body span : String)
    (hch : P.changes = [c]) (hnew : c.is_new_file = false)
    (htype : c.type = "replacement")
    (hspan : c.text_to_replace = some span) (hne : span ≠ "")
    (hd : c.file_description = none) (hg : c.file_globs = none) :
    merge_rule_changes [P] (some body) = pyReplace body span c.content
    ∧ pyReplace body span c.content
        = strJoinWith c.content (pySplitAll body span)
    ∧ (pyContains body span = false → merge_rule_changes [P] (some body) = body) := by
  have hmain : merge_rule_changes [P] (some body) = pyReplace body span c.content := by
    rw [merge_single_bodyEdit P c body hch hnew hd hg]
    simp only [bodyEdit, htype, hspan, Option.getD_some]
    simp [truthyO, hne]
  refine ⟨hmain, ?_, ?_⟩
  · rw [pyReplace, pySplitAll, replaceAux_eq_joinWithC, ← strJoinWith_mk]
  · intro hnc
    rw [hmain, pyReplace]
    rw [pyContains, pyFind] at hnc
    rw [replaceAux_id_of_find_none _ _ _ (by simpa using hnc), mk_data]

/-- Claim C8, witness: a span occurring twice is replaced at both
occurrences, and the split-rejoin characterisation agrees. -/
theorem c8_witness :
    merge_rule_changes
      [⟨true, "", none, none,
        [⟨"replacement", "Z", some "foo", none, false, none, none⟩]⟩]
      (some "foo bar foo")
      = pyReplace "foo bar foo" "foo" "Z"
    ∧ pyReplace "foo bar foo" "foo" "Z"
        = strJoinWith "Z" (pySplitAll "foo bar foo" "foo")
    ∧ (pyContains "foo bar foo" "foo" = false →
        merge_rule_changes
          [⟨true, "", none, none,
            [⟨"replacement", "Z", some "foo", none, false, none, none⟩]⟩]
          (some "foo bar foo")
          = "foo bar foo") :=
  c8_replacement_semantics
    ⟨true, "", none, none,
      [⟨"replacement", "Z", some "foo", none, false, none, none⟩]⟩
    ⟨"replacement", "Z", some "foo", none, false, none, none⟩
    "foo bar foo" "foo" rfl rfl rfl rfl (by decide) rfl rfl

/-! ## Parse and handler lemmas -/

theorem parse_applied (decoder : String → List (Nat × RuleGenerationOutput))
    (body : String) (hs : pyContains body SUMMARY_SIGNATURE = true)
    (ha : pyContains body APPLIED_SIGNATURE = true) :
    parse_summary_state decoder body = ⟨[], true⟩ := by
  simp [parse_summary_state, hs, ha]

theorem parse_no_summary (decoder : String → List (Nat × RuleGenerationOutput))
    (body : String) (hs : pyContains body SUMMARY_SIGNATURE = false) :
    parse_summary_state decoder body = ⟨[], false⟩ := by
  simp [parse_summary_state, hs]

/-- Claim C10: for every summary body containing the applied signature
banner (and the summary signature, so the body is recognised as a
summary), `parse_summary_state` returns the applied state with an empty
suggestion list, for every possible behaviour of the hidden-JSON decoder
— any serialized suggestions still present in the body are ignored and
unrecoverable from the parsed state. -/
theorem c10_applied_empty_parse (decoder : String → List (Nat × RuleGenerationOutput))
    (body : String) (hs : pyContains body SUMMARY_SIGNATURE = true)
    (ha : pyContains body APPLIED_SIGNATURE = true) :
    parse_summary_state decoder body = ⟨[], true⟩ := by
  simp [parse_summary_state, hs, ha]

/-- Claim C10, witness: a body that still carries a hidden
`rule-changes` blob, parsed with a decoder that would return a non-empty
suggestion list, still yields the empty applied state. -/
theorem c10_witness :
    parse_summary_state
      (fun _ => [(7, ⟨true, "", none, some ".cursor/rules/a.mdc",
        [⟨"addition", "zz", none, none, true, some ["*.py"], some "d"⟩]⟩)])
      (SUMMARY_SIGNATURE ++ "\n\n" ++ APPLIED_SIGNATURE
        ++ "\nLocked.\n\n<!--rule-changes\nSERIALIZED SUGGESTIONS\n-->\n")
      = ⟨[], true⟩ :=
  c10_applied_empty_parse
    (fun _ => [(7, ⟨true, "", none, some ".cursor/rules/a.mdc",
      [⟨"addition", "zz", none, none, true, some ["*.py"], some "d"⟩]⟩)])
    (SUMMARY_SIGNATURE ++ "\n\n" ++ APPLIED_SIGNATURE
      ++ "\nLocked.\n\n<!--rule-changes\nSERIALIZED SUGGESTIONS\n-->\n")
    (by decide) (by decide)

/-- Claim C7, counterexample: an apply command against an
already-applied summary is answered with the message
`"No accepted suggestions to apply"`, not `"Rules already applied"` as
the claim states: parsing an applied summary yields an empty suggestion
list, so `handle_apply_command` takes its emptiness branch first and its
dedicated already-applied branch is unreachable. -/
theorem c7_counterexample :
    (handle_apply_command (fun _ _ => []) (fun _ => "") (fun _ => [])
      (fun _ => none)
      (some (SUMMARY_SIGNATURE ++ "\n\n" ++ APPLIED_SIGNATURE ++ "\nLocked."))
      []).message
      = "No accepted suggestions to apply"
    ∧ ("No accepted suggestions to apply" : String) ≠ "Rules already applied" := by
  exact ⟨rfl, by decide⟩

/-- Claim C7, amended: an apply command against a summary body containing
the applied signature is a complete no-op — no merge result is computed
for a commit (`commits = none`) and the summary comment is not edited
(`editedSummary = none`) — but it reports
`"No accepted suggestions to apply"` rather than reporting that the rules
are already applied. -/
theorem c7_amended (udiff : List String → List String → List String)
    (dumps : List (Nat × RuleGenerationOutput) → String)
    (decoder : String → List (Nat × RuleGenerationOutput))
    (getFile : Option String → Option String)
    (body : String) (rules : List CursorRule)
    (ha : pyContains body APPLIED_SIGNATURE = true) :
    handle_apply_command udiff dumps decoder getFile (some body) rules
      = ⟨"No accepted suggestions to apply", none, none⟩ := by
  by_cases hs : pyContains body SUMMARY_SIGNATURE = true
  · simp [handle_apply_command, parse_applied decoder body hs ha]
  · have hp := parse_no_summary decoder body (by simpa using hs)
    simp [handle_apply_command, hp]

/-- Claim C7, witness for the amended theorem. -/
theorem c7_amended_witness :
    handle_apply_command (fun _ _ => []) (fun _ => "") (fun _ => [])
      (fun _ => none)
      (some (SUMMARY_SIGNATURE ++ "\n\n" ++ APPLIED_SIGNATURE ++ "\nLocked."))
      []
      = ⟨"No accepted suggestions to apply", none, none⟩ :=
  c7_amended (fun _ _ => []) (fun _ => "") (fun _ => []) (fun _ => none)
    (SUMMARY_SIGNATURE ++ "\n\n" ++ APPLIED_SIGNATURE ++ "\nLocked.") []
    (by decide)

/-- Claim C6: whenever the summary re-rendered with the candidate
suggestion added would exceed 60,000 UTF-8 bytes, the acceptance handler
rejects with the descriptive message instructing the operator to apply
pending suggestions first, and writes nothing: the summary comment — the
store of the accumulated change-log state — is left unedited
(`editedSummary = none`), for every behaviour of the external `udiff`,
`dumps` and `decoder` collaborators. -/
theorem c6_size_guard (udiff : List String → List String → List String)
    (dumps : List (Nat × RuleGenerationOutput) → String)
    (decoder : String → List (Nat × RuleGenerationOutput))
    (commentId : Nat) (out : RuleGenerationOutput)
    (body : String) (rules : List CursorRule)
    (hna : (parse_summary_state decoder body).is_applied = false)
    (hsize : utf8Len (format_summary_comment udiff dumps
        ((parse_summary_state decoder body).addSuggestion commentId out) rules)
      > 60000) :
    handle_suggestion_acceptance udiff dumps decoder commentId out body rules
      = ⟨"Cannot accept suggestion: Summary comment would exceed GitHub's size limit. Please apply current suggestions before adding more.", none⟩ := by
  simp only [handle_suggestion_acceptance, hna, Bool.false_eq_true, if_false]
  rw [if_pos hsize]

theorem utf8Len_append (a b : String) :
    utf8Len (a ++ b) = utf8Len a + utf8Len b := by
  simp [utf8Len, data_append]

theorem utf8Len_mk_replicate (n : Nat) (c : Char) :
    utf8Len (String.mk (List.replicate n c)) = n * c.utf8Size := by
  induction n with
  | zero => simp [utf8Len]
  | succ n ih =>
    simp only [utf8Len, List.replicate_succ, List.map_cons, List.sum_cons] at ih ⊢
    rw [ih, Nat.succ_mul]
    omega

set_option maxRecDepth 8000 in
/-- Claim C6, witness: a candidate acceptance whose re-rendered summary
exceeds 60,000 UTF-8 bytes (the hidden-state serialisation alone is
15,100 four-byte characters) is rejected with the descriptive message and
the summary comment is not edited. -/
theorem c6_witness :
    handle_suggestion_acceptance (fun _ _ => [])
      (fun _ => String.mk (List.replicate 15100 (Char.ofNat 120143)))
      (fun _ => []) 1
      ⟨true, "", none, some ".cursor/rules/t.mdc",
        [⟨"addition", "x", none, none, true, some ["*.py"], some "d"⟩]⟩
      SUMMARY_SIGNATURE []
      = ⟨"Cannot accept suggestion: Summary comment would exceed GitHub's size limit. Please apply current suggestions before adding more.", none⟩ :=
  c6_size_guard (fun _ _ => [])
    (fun _ => String.mk (List.replicate 15100 (Char.ofNat 120143)))
    (fun _ => []) 1
    ⟨true, "", none, some ".cursor/rules/t.mdc",
      [⟨"addition", "x", none, none, true, some ["*.py"], some "d"⟩]⟩
    SUMMARY_SIGNATURE []
    (by decide)
    (by
      show utf8Len
        (((("### 💡 CURSOR RULE SUGGESTIONS SUMMARY\n\nChanges to be applied:\n\nFile: `.cursor/rules/t.mdc` (new file)\n```diff\n+ ---\n+ description: d\n+ globs: \"*.py\"\n+ ---\n+ \n+ x\n+ \n```\n\n**To apply these changes:**\nAdd a new comment on this PR with the text `/apply-cursor-rules` and nothing else.\n"
            ++ "\n<!--rule-changes\n")
            ++ String.mk (List.replicate 15100 (Char.ofNat 120143)))
            ++ "\n-->\n")
          ++ "\nℹ️ Once rules are applied, no further rule suggestions will be added to this PR. Always double check the generated commit before merging.") > 60000
      simp only [utf8Len_append, utf8Len_mk_replicate]
      rw [show (Char.ofNat 120143).utf8Size = 4 from by decide]
      omega)

end CursorRuler
